import Mathlib

/-!
Shallow embedding of the `buffer-sdk-demo` client library
(`src/client.ts`, `src/types.ts`) in Lean 4, together with proofs about
the claims of the specification.

Modelling conventions:
* JavaScript numbers that the program only ever holds as integers
  (timestamps in milliseconds, counters, metric values) are modelled as `ℤ`
  or `ℕ`; fractional quantities (engagement rates, distribution weights)
  are modelled as `ℚ`.
* `Date.now()` is modelled by an explicit parameter `now : ℤ`; all
  `Date.now()` / `new Date()` reads inside one operation are assumed to
  observe the same millisecond, matching single-threaded execution.
* `Math.random()` is modelled by an explicit stream `g : ℕ → ℚ` of draws,
  consumed in program order; a valid stream has every value in `[0, 1)`.
* An ISO date-time string produced by `toISOString()` is an injective
  encoding of its (truncated) millisecond timestamp, so `publishedAt` and
  friends are modelled directly by the timestamp `ℤ`; `new Date(ms)`
  truncates a fractional millisecond value toward zero (`TimeClip`),
  modelled by `jsTrunc`.
* A `Date` built from a date-only string `"YYYY-MM-DD"` (the result of
  `toISOString().split('T')[0]`) is the UTC midnight of that day,
  modelled by `dayFloor`.
* Thrown `BufferAPIError`s become `Except`/`Option` results; a thrown
  value that is not a `BufferAPIError` is the `.other` constructor of
  `ClientError`.
-/

namespace BufferSdk

/-- Milliseconds per day, the `millisecondsPerDay` constant (24*60*60*1000). -/
def msPerDay : ℤ := 86400000

/-- JavaScript `TimeClip` conversion of a (possibly fractional) millisecond
value to an integer: truncation toward zero. -/
def jsTrunc (q : ℚ) : ℤ := if q < 0 then ⌈q⌉ else ⌊q⌋

/-- UTC midnight of the day containing timestamp `t`: the value of
`new Date(new Date(t).toISOString().split('T')[0]).getTime()`. -/
def dayFloor (t : ℤ) : ℤ := t - t % msPerDay

/-- JavaScript `x || d` for an optional number: `undefined` and `0` are falsy. -/
def jsOrInt (x : Option ℤ) (d : ℤ) : ℤ :=
  match x with
  | none => d
  | some v => if v = 0 then d else v

/-- JavaScript `x || d` for an optional natural number. -/
def jsOrNat (x : Option ℕ) (d : ℕ) : ℕ :=
  match x with
  | none => d
  | some v => if v = 0 then d else v

/-- JavaScript `x || d` for an optional string: `undefined` and `""` are falsy. -/
def jsOrStr (x : Option String) (d : String) : String :=
  match x with
  | none => d
  | some v => if v = "" then d else v

/-- A `Math.random()` stream is valid when every draw lies in `[0, 1)`. -/
def IsRandomStream (g : ℕ → ℚ) : Prop := ∀ i, 0 ≤ g i ∧ g i < 1

/-- The `SocialPlatform` union type from `types.ts`. -/
inductive SocialPlatform where
  | x
  | linkedin
  | facebook
  | instagram
deriving DecidableEq, Repr

/-- The `TimeRange` union type from `types.ts`. -/
inductive TimeRange where
  | d7
  | d30
  | d90
  | y1
  | custom
deriving DecidableEq, Repr

/-- The `BufferAPIError` class (`types.ts`): a structured error object.
The free-form `details` payload is not needed by any claim and is omitted. -/
structure BufferAPIError where
  code : String
  message : String
  statusCode : Option ℕ
deriving DecidableEq, Repr

/-- A thrown JavaScript value as seen by `retryRequest`: either a
`BufferAPIError` instance or any other exception. -/
inductive ClientError where
  | api (e : BufferAPIError)
  | other (message : String)
deriving DecidableEq, Repr

/-- The `schedules` entries of a `BufferProfile`. -/
structure Schedule where
  days : List String
  times : List String
deriving DecidableEq, Repr

/-- The `BufferProfile` interface from `types.ts`. -/
structure BufferProfile where
  id : String
  service : SocialPlatform
  service_username : String
  service_id : String
  formatted_username : String
  avatar : String
  timezone : String
  schedules : List Schedule
  isDefault : Bool
deriving DecidableEq, Repr

/-- The `statistics` bag of a `BufferPost`. -/
structure PostStatistics where
  reach : ℤ
  clicks : ℤ
  retweets : ℤ
  favorites : ℤ
  mentions : ℤ
  comments : ℤ
  shares : ℤ
deriving DecidableEq, Repr

/-- The `status` union of a `BufferPost`. -/
inductive PostStatus where
  | buffer
  | sent
  | failed
  | draft
deriving DecidableEq, Repr

/-- The `BufferPost` interface from `types.ts` (the `via` and `media`
fields are never produced nor read by the embedded operations). -/
structure BufferPost where
  id : String
  profile_id : String
  status : PostStatus
  text : String
  text_formatted : String
  created_at : ℤ
  due_at : Option ℤ
  sent_at : Option ℤ
  statistics : Option PostStatistics
deriving DecidableEq, Repr

/-- The metric bag of a `PostAnalytics` record: four always-present metrics
plus three optional platform-specific ones. -/
structure Metrics where
  likes : ℤ
  comments : ℤ
  shares : ℤ
  clicks : ℤ
  retweets : Option ℤ
  reactions : Option ℤ
  saves : Option ℤ
deriving DecidableEq, Repr

/-- The `PostAnalytics` interface from `types.ts`; `publishedAt` is the
millisecond timestamp encoded by the ISO string. -/
structure PostAnalytics where
  postId : String
  profileId : String
  service : SocialPlatform
  publishedAt : ℤ
  text : String
  metrics : Metrics
  engagementRate : ℚ
  reach : ℤ
  impressions : ℤ
deriving DecidableEq, Repr

/-- Sum of all values of the metric bag, as computed by
`Object.values(post.metrics).reduce((s, v) => s + (v || 0), 0)`:
absent optional fields contribute `0`. -/
def Metrics.total (m : Metrics) : ℤ :=
  m.likes + m.comments + m.shares + m.clicks +
    m.retweets.getD 0 + m.reactions.getD 0 + m.saves.getD 0

/-- The `topMetrics` bag of an `AnalyticsSummary`. -/
structure TopMetrics where
  likes : ℤ
  comments : ℤ
  shares : ℤ
  clicks : ℤ
  reach : ℤ
  impressions : ℤ
deriving DecidableEq, Repr

/-- One entry of a summary's `platformBreakdown`. -/
structure PlatformBreakdown where
  platform : SocialPlatform
  postCount : ℕ
  engagementRate : ℚ
  reach : ℤ
deriving DecidableEq, Repr

/-- The `trending` component of an `AnalyticsSummary`. -/
structure Trending where
  direction : String
  percentage : ℤ
deriving DecidableEq, Repr

/-- The `AnalyticsSummary` interface from `types.ts`. -/
structure AnalyticsSummary where
  profileId : String
  timeRange : TimeRange
  totalPosts : ℕ
  totalEngagement : ℤ
  averageEngagementRate : ℚ
  bestPerformingPost : String
  topPerformingTime : String
  topMetrics : TopMetrics
  platformBreakdown : List PlatformBreakdown
  trending : Trending
deriving DecidableEq, Repr

/-- The `AnalyticsOptions` bag (`types.ts`); start/end dates are modelled
by their millisecond timestamps, `period` by its raw string (`period: any`
in the source). Fields may be absent in caller-supplied bags, mirroring
the truthiness checks the code performs on each access. The
`includeMetrics` and `customDateRange` fields are never read by the
embedded code paths and are omitted. -/
structure AnalyticsOptions where
  timeRange : Option TimeRange := none
  platforms : Option (List SocialPlatform) := none
  groupBy : Option String := none
  start : Option ℤ := none
  stop : Option ℤ := none
  period : Option String := none
deriving DecidableEq, Repr

/-- The `CreatePostData` interface (`types.ts`); `scheduled_at` is modelled
by its timestamp. The `media`/`shorten`/`attachment` fields are never read
by the embedded operations and are omitted. -/
structure CreatePostData where
  text : String
  scheduled_at : Option ℤ := none
deriving DecidableEq, Repr

/-- Rate-limit quota configuration (`config.rateLimit`). -/
structure RateLimitConfig where
  requests : ℕ
  window : ℤ
deriving DecidableEq, Repr

/-- The `RateLimitState` owned by one client instance. -/
structure RateLimitState where
  requests : ℕ
  resetTime : ℤ
deriving DecidableEq, Repr

/-- The private `checkRateLimit` method: resets the window when expired
(`now > resetTime`), then either fails with `RATE_LIMIT_EXCEEDED` (quota
reached) or increments the counter. Returns the updated state together
with the error, if any. -/
def checkRateLimit (cfg : RateLimitConfig) (now : ℤ) (s : RateLimitState) :
    RateLimitState × Option BufferAPIError :=
  let s1 : RateLimitState :=
    if s.resetTime < now then { requests := 0, resetTime := now + cfg.window } else s
  if cfg.requests ≤ s1.requests then
    let waitTime := s1.resetTime - now
    (s1, some { code := "RATE_LIMIT_EXCEEDED",
                message := "Rate limit exceeded. Try again in " ++
                  toString ⌈(waitTime : ℚ) / 1000⌉ ++ " seconds.",
                statusCode := some 429 })
  else
    ({ s1 with requests := s1.requests + 1 }, none)

/-- Sequential rate-limit checks at the given call times, threading the
mutable `RateLimitState` exactly as repeated `checkRateLimit` calls do. -/
def runRateChecks (cfg : RateLimitConfig) (s : RateLimitState) :
    List ℤ → RateLimitState × List (Option BufferAPIError)
  | [] => (s, [])
  | t :: ts =>
    let r := checkRateLimit cfg t s
    let rest := runRateChecks cfg r.1 ts
    (rest.1, r.2 :: rest.2)

/-- The retryable error codes of `retryRequest`. -/
def retryableCodes : List String :=
  ["NETWORK_ERROR", "TIMEOUT", "HTTP_500", "HTTP_502", "HTTP_503"]

/-- Whether `retryRequest` rethrows `e` without retrying: only
`BufferAPIError` instances with a non-retryable code propagate immediately;
any other thrown value falls through to the retry path. -/
def propagatesImmediately (e : ClientError) : Bool :=
  match e with
  | .api e => !(retryableCodes.contains e.code)
  | .other _ => false

/-- Fuel-driven unfolding of the recursive `retryRequest`; `fn i` is the
outcome of the `i`-th invocation of `requestFn` (attempts are numbered from
1, as `currentAttempt` is). Returns the final outcome together with the
index of the last attempt made. The fuel only bounds the recursion depth;
`retryRequest` supplies enough fuel that it never runs out. -/
def retryAux (attempts : ℕ) (fn : ℕ → Except ClientError α) :
    ℕ → ℕ → Except ClientError α × ℕ
  | current, 0 => (fn current, current)
  | current, fuel + 1 =>
    match fn current with
    | .ok a => (.ok a, current)
    | .error e =>
      if attempts ≤ current then (.error e, current)
      else if propagatesImmediately e then (.error e, current)
      else retryAux attempts fn (current + 1) fuel

/-- The private `retryRequest` method with `retryConfig.attempts = attempts`,
started at `currentAttempt = 1`. The backoff sleeps do not affect the
result and are not modelled. -/
def retryRequest (attempts : ℕ) (fn : ℕ → Except ClientError α) :
    Except ClientError α × ℕ :=
  retryAux attempts fn 1 attempts

/-- The fixed mock profile catalog returned by `generateMockProfiles`:
exactly one profile per supported platform. (`isDefault` models the
`default` field of the source.) -/
def generateMockProfiles : List BufferProfile :=
  [ { id := "profile_x_001",
      service := .x,
      service_username := "bufferoptimizer",
      service_id := "1234567890",
      formatted_username := "@bufferoptimizer",
      avatar := "https://images.unsplash.com/photo-1472099645785-5658abf4ff4e?w=150&h=150&fit=crop&crop=face",
      timezone := "America/Los_Angeles",
      schedules :=
        [ { days := ["mon", "tue", "wed", "thu", "fri"],
            times := ["09:00", "13:00", "17:00", "20:00"] },
          { days := ["sat", "sun"], times := ["11:00", "15:00"] } ],
      isDefault := true },
    { id := "profile_linkedin_002",
      service := .linkedin,
      service_username := "buffer-content-optimizer",
      service_id := "0987654321",
      formatted_username := "Buffer Content Optimizer",
      avatar := "https://images.unsplash.com/photo-1560250097-0b93528c311a?w=150&h=150&fit=crop&crop=face",
      timezone := "America/Los_Angeles",
      schedules :=
        [ { days := ["mon", "tue", "wed", "thu", "fri"],
            times := ["08:00", "12:00", "16:00"] } ],
      isDefault := false },
    { id := "profile_facebook_003",
      service := .facebook,
      service_username := "BufferContentOptimizer",
      service_id := "1122334455",
      formatted_username := "Buffer Content Optimizer",
      avatar := "https://images.unsplash.com/photo-1507003211169-0a1dd7228f2d?w=150&h=150&fit=crop&crop=face",
      timezone := "America/Los_Angeles",
      schedules :=
        [ { days := ["mon", "tue", "wed", "thu", "fri", "sat", "sun"],
            times := ["10:00", "14:00", "19:00"] } ],
      isDefault := false },
    { id := "profile_instagram_004",
      service := .instagram,
      service_username := "buffer.optimizer",
      service_id := "5566778899",
      formatted_username := "@buffer.optimizer",
      avatar := "https://images.unsplash.com/photo-1494790108755-2616b612b647?w=150&h=150&fit=crop&crop=face",
      timezone := "America/Los_Angeles",
      schedules :=
        [ { days := ["mon", "wed", "fri"], times := ["12:00", "17:00"] },
          { days := ["sat", "sun"], times := ["10:00", "14:00", "18:00"] } ],
      isDefault := false } ]

/-- The simulation branch of `profiles.get`: scan the mock catalog by id
and fail with `PROFILE_NOT_FOUND` when absent. -/
def profilesGetMock (profileId : String) : Except BufferAPIError BufferProfile :=
  match generateMockProfiles.find? (fun p => p.id == profileId) with
  | some p => .ok p
  | none => .error { code := "PROFILE_NOT_FOUND",
                     message := "Profile " ++ profileId ++ " not found",
                     statusCode := some 404 }

/-- The private `generateMockPost` helper: mints a post with the given id,
the fixed profile id `profile_mock_001`, status `buffer` and zeroed
statistics, echoing the caller-supplied text when present and non-empty. -/
def generateMockPost (now : ℤ) (postId : String) (data : Option CreatePostData) :
    BufferPost :=
  let fallbackText := "Mock post content for " ++ postId
  { id := postId,
    profile_id := "profile_mock_001",
    status := .buffer,
    text := jsOrStr (data.map (·.text)) fallbackText,
    text_formatted := jsOrStr (data.map (·.text)) fallbackText,
    created_at := now,
    due_at := some (match data.bind (·.scheduled_at) with
      | some t => t
      | none => now + 3600000),
    sent_at := none,
    statistics := some { reach := 0, clicks := 0, retweets := 0, favorites := 0,
                         mentions := 0, comments := 0, shares := 0 } }

/-- The simulation branch of `posts.get`: it unconditionally fabricates a
mock post for the requested id (no not-found check is performed). -/
def postsGetMock (now : ℤ) (postId : String) : Except BufferAPIError BufferPost :=
  .ok (generateMockPost now postId none)

/-- The simulation branch of `posts.create`: mints a post with id
`mock_<Date.now()>` from the caller-supplied data; the `profileId`
argument is not used. -/
def postsCreateMock (now : ℤ) (_profileId : String) (data : CreatePostData) :
    Except BufferAPIError BufferPost :=
  .ok (generateMockPost now ("mock_" ++ toString now) (some data))

/-- The private `generateMockPostAnalytics` helper behind the simulation
branch of `posts.analytics`: all numeric fields are independent draws. -/
def generateMockPostAnalytics (g : ℕ → ℚ) (now : ℤ) (postId : String) :
    PostAnalytics :=
  { postId := postId,
    profileId := "profile_mock_001",
    service := .x,
    publishedAt := now - 86400000,
    text := "Sample post for analytics",
    metrics := { likes := ⌊g 0 * 200⌋,
                 comments := ⌊g 1 * 50⌋,
                 shares := ⌊g 2 * 30⌋,
                 clicks := ⌊g 3 * 100⌋,
                 retweets := some ⌊g 4 * 25⌋,
                 reactions := none,
                 saves := none },
    engagementRate := g 5 * (1/10),
    reach := ⌊g 6 * 5000⌋,
    impressions := ⌊g 7 * 10000⌋ }

/-- The simulation branch of `posts.analytics`. -/
def postsAnalyticsMock (g : ℕ → ℚ) (now : ℤ) (postId : String) :
    Except BufferAPIError PostAnalytics :=
  .ok (generateMockPostAnalytics g now postId)

/-- The `platforms` constant of `generateMockAnalytics` (also the iteration
order of the summary's platform breakdown). -/
def allPlatforms : List SocialPlatform := [.x, .linkedin, .facebook, .instagram]

/-- The string name of a platform, as interpolated into ids. -/
def SocialPlatform.name : SocialPlatform → String
  | .x => "x"
  | .linkedin => "linkedin"
  | .facebook => "facebook"
  | .instagram => "instagram"

/-- `createCompleteAnalyticsOptions`: fills every missing field with its
default. The default start/end dates are the date-only strings for
`now - 30 days` and `now`, i.e. the corresponding UTC midnights. -/
def createCompleteAnalyticsOptions (now : ℤ) (o : AnalyticsOptions) :
    AnalyticsOptions :=
  { timeRange := some (o.timeRange.getD .d30),
    start := some (o.start.getD (dayFloor (now - 30 * msPerDay))),
    stop := some (o.stop.getD (dayFloor now)),
    period := some (jsOrStr o.period "day"),
    platforms := o.platforms,
    groupBy := o.groupBy }

/-- The `timeRangeMap` of `getTimeRangeDays`. -/
def timeRangeToDays : TimeRange → ℤ
  | .d7 => 7
  | .d30 => 30
  | .d90 => 90
  | .y1 => 365
  | .custom => 30

/-- `getTimeRangeDays`: explicit start/end dates take precedence (day
difference, rounded up); otherwise the time-range shorthand is mapped,
defaulting to 30 days. -/
def getTimeRangeDays (o : AnalyticsOptions) : ℤ :=
  match o.start, o.stop with
  | some s, some e => ⌈((e - s : ℤ) : ℚ) / (msPerDay : ℚ)⌉
  | _, _ => timeRangeToDays (o.timeRange.getD .d30)

/-- `calculatePostCount`: one post per platform per day, scaled by the
period multiplier and capped at 500. `options.platforms?.length || 4`
makes an absent or empty platform list count as 4. -/
def calculatePostCount (days : ℤ) (o : AnalyticsOptions) : ℤ :=
  let platformCount : ℕ := jsOrNat (o.platforms.map (·.length)) 4
  let basePostsPerDay := platformCount
  let multiplier : ℚ :=
    if o.period == some "week" then 1/2
    else if o.period == some "month" then 3/10
    else 1
  min ⌊((days * basePostsPerDay : ℤ) : ℚ) * multiplier⌋ 500

/-- `Math.ceil(totalPosts / timeRangeDays)`. A zero divisor would give
`Infinity` in JavaScript; it is modelled as 0, which is sound because the
generation loop never reads `postsPerDay` when the day count is 0. -/
def jsCeilDiv (a b : ℤ) : ℤ := if b = 0 then 0 else ⌈(a : ℚ) / (b : ℚ)⌉

/-- `getProfileIdForPlatform`: the platform → mock profile id map (total,
so the fallback id is never used). -/
def getProfileIdForPlatform (p : SocialPlatform) (_fallbackId : String) : String :=
  match p with
  | .x => "profile_x_001"
  | .linkedin => "profile_linkedin_002"
  | .facebook => "profile_facebook_003"
  | .instagram => "profile_instagram_004"

/-- `getBaseEngagementForPlatform`: fixed per-platform base rates. -/
def getBaseEngagementForPlatform : SocialPlatform → ℚ
  | .x => 45/1000
  | .linkedin => 54/1000
  | .facebook => 63/1000
  | .instagram => 71/1000

/-- The per-platform reach ranges of `getPlatformReach`. -/
def reachRange : SocialPlatform → ℤ × ℤ
  | .x => (800, 8000)
  | .linkedin => (500, 3000)
  | .facebook => (1200, 12000)
  | .instagram => (600, 6000)

/-- `getPlatformReach`, with the `Math.random()` draw `r` passed in:
`Math.floor(r * (max - min) + min)`. -/
def getPlatformReach (p : SocialPlatform) (r : ℚ) : ℤ :=
  let range := reachRange p
  ⌊r * ((range.2 - range.1 : ℤ) : ℚ) + (range.1 : ℚ)⌋

/-- The fixed multiplier bases of `getPlatformImpressionMultiplier`. -/
def impressionMultiplierBase : SocialPlatform → ℚ
  | .x => 18/10
  | .linkedin => 14/10
  | .facebook => 22/10
  | .instagram => 16/10

/-- `getPlatformImpressionMultiplier`, with the `Math.random()` draw `r`
passed in: base + r * 0.4. -/
def getPlatformImpressionMultiplier (p : SocialPlatform) (r : ℚ) : ℚ :=
  impressionMultiplierBase p + r * (4/10)

/-- The four content templates per platform of `generatePlatformContent`
(copied byte-for-byte from the source, apostrophes escaped). -/
def contentTemplates : SocialPlatform → List String
  | .x =>
    [ "üöÄ Exciting updates coming to our platform! What feature would you like to see next? #innovation #tech #startup",
      "üìä Data shows that engaged teams are 3x more productive. How do you keep your team motivated? #productivity #leadership",
      "üí° Pro tip: Schedule your social media posts during peak engagement hours for maximum reach! #socialmedia #marketing",
      "üî• Just launched our new analytics dashboard! The insights are incredible. Check it out üëá #analytics #data" ]
  | .linkedin =>
    [ "Thrilled to share insights from our latest industry report. Key findings that every professional should know about the future of social media marketing.",
      "Leadership isn\x27t about having all the answers‚Äîit\x27s about asking the right questions and empowering your team to find innovative solutions.",
      "The future of work is hybrid, and companies that adapt quickly will thrive. How is your organization preparing for this transformation?",
      "Data-driven decision making has revolutionized our business operations. Here\x27s how we leverage analytics to drive sustainable growth and innovation." ]
  | .facebook =>
    [ "We\x27re so grateful for our amazing community! üôè Thank you for your continued support and feedback. Your input helps us build better tools every day.",
      "Behind the scenes look at our team working hard to bring you the best social media optimization features. The dedication is incredible! üí™",
      "What\x27s your favorite way to stay productive while working from home? Share your tips below ‚Äì we love learning from our community! üè†",
      "Celebrating another milestone! üéâ Thanks to everyone who\x27s been part of this incredible journey. Here\x27s to many more achievements together." ]
  | .instagram =>
    [ "‚ú® Creating magic one post at a time. What inspires your content creation journey? Drop a comment below! #contentcreator #inspiration",
      "üåü Monday motivation: Your only limit is your mind. Dream big, work hard, and make it happen! #mondaymotivation #dreambig #hustle",
      "üì∑ Captured this amazing moment during our team retreat last week. Nothing beats good vibes and great people! #teamretreat #goodvibes",
      "üé® Design is not just what it looks like‚Äîdesign is how it works. Function meets beauty in everything we create. #designthinking #ux" ]

/-- `generatePlatformContent`: cycles through the four templates. -/
def generatePlatformContent (p : SocialPlatform) (index : ℕ) : String :=
  let templates := contentTemplates p
  templates.getD (index % templates.length) ""

/-- One platform's metric-distribution record (the `distributions` object
of `generatePlatformMetrics`); absent keys are `none`. -/
structure MetricDist where
  likes : ℚ
  comments : Option ℚ
  shares : Option ℚ
  clicks : Option ℚ
  retweets : Option ℚ
  saves : Option ℚ
deriving DecidableEq, Repr

/-- The `distributions` table of `generatePlatformMetrics`. -/
def distributions : SocialPlatform → MetricDist
  | .x => { likes := 6/10, retweets := some (15/100), comments := some (15/100),
            clicks := some (1/10), shares := none, saves := none }
  | .linkedin => { likes := 5/10, comments := some (25/100), shares := some (15/100),
                   clicks := some (1/10), retweets := none, saves := none }
  | .facebook => { likes := 55/100, comments := some (2/10), shares := some (15/100),
                   clicks := some (1/10), retweets := none, saves := none }
  | .instagram => { likes := 75/100, comments := some (15/100), saves := some (8/100),
                    clicks := some (2/100), retweets := none, shares := none }

/-- `generatePlatformMetrics`: splits `floor(reach * engagementRate)`
across the platform's distribution weights; the switch layers the
platform-specific extra fields on top of the base bag. -/
def generatePlatformMetrics (p : SocialPlatform) (engagementRate : ℚ) (reach : ℤ) :
    Metrics :=
  let totalEngagement : ℤ := ⌊(reach : ℚ) * engagementRate⌋
  let dist := distributions p
  let baseMetrics : Metrics :=
    { likes := ⌊(totalEngagement : ℚ) * dist.likes⌋,
      comments := ⌊(totalEngagement : ℚ) * (dist.comments.getD 0)⌋,
      clicks := ⌊(totalEngagement : ℚ) * (dist.clicks.getD 0)⌋,
      shares := ⌊(totalEngagement : ℚ) * (dist.shares.getD 0)⌋,
      retweets := none, reactions := none, saves := none }
  match p with
  | .x =>
    { baseMetrics with retweets := some ⌊(totalEngagement : ℚ) * (dist.retweets.getD 0)⌋ }
  | .linkedin =>
    { baseMetrics with shares := ⌊(totalEngagement : ℚ) * (dist.shares.getD 0)⌋ }
  | .facebook =>
    { baseMetrics with shares := ⌊(totalEngagement : ℚ) * (dist.shares.getD 0)⌋,
                       reactions := some baseMetrics.likes }
  | .instagram =>
    { baseMetrics with saves := some ⌊(totalEngagement : ℚ) * (dist.saves.getD 0)⌋ }

/-- The `postDate` computed for slot `i` of `day`:
`new Date(Date.now() - day*msPerDay - i*(msPerDay/dailyPostCount))`. -/
def analyticsPostDate (now : ℤ) (day i : ℕ) (dailyCount : ℤ) : ℤ :=
  jsTrunc ((now : ℚ) - (day : ℚ) * (msPerDay : ℚ) -
    (i : ℚ) * ((msPerDay : ℚ) / (dailyCount : ℚ)))

/-- The `PostAnalytics` record pushed by one non-skipped iteration of the
generation loop of `generateMockAnalytics`. `idx` is the current
`postIndex`, which also addresses the three `Math.random()` draws of this
record (draw order: engagement variation, reach, impression multiplier). -/
def analyticsRecord (g : ℕ → ℚ) (now : ℤ) (profileId : String)
    (platformsToUse : List SocialPlatform) (day i : ℕ) (dailyCount : ℤ)
    (idx : ℕ) : PostAnalytics :=
  let platform := platformsToUse.getD (idx % platformsToUse.length) .x
  let currentProfileId := getProfileIdForPlatform platform profileId
  let content := generatePlatformContent platform idx
  let baseEngagement := getBaseEngagementForPlatform platform
  let variation := (g (3 * idx) - 1/2) * (2/100)
  let engagementRate := max (1/100) (baseEngagement + variation)
  let reach := getPlatformReach platform (g (3 * idx + 1))
  let impressions : ℤ :=
    ⌊(reach : ℚ) * getPlatformImpressionMultiplier platform (g (3 * idx + 2))⌋
  { postId := "post_" ++ platform.name ++ "_" ++ toString idx,
    profileId := currentProfileId,
    service := platform,
    publishedAt := analyticsPostDate now day i dailyCount,
    text := content,
    metrics := generatePlatformMetrics platform engagementRate reach,
    engagementRate := engagementRate,
    reach := reach,
    impressions := impressions }

/-- One iteration of the inner post-generation loop of
`generateMockAnalytics`: computes the post date for slot `i` of `day`,
applies the explicit start/end filter (`continue`), and otherwise builds
the record. -/
def mkAnalyticsPost (g : ℕ → ℚ) (now : ℤ) (profileId : String)
    (o : AnalyticsOptions) (platformsToUse : List SocialPlatform)
    (day i : ℕ) (dailyCount : ℤ) (idx : ℕ) : Option PostAnalytics :=
  let postDate := analyticsPostDate now day i dailyCount
  if o.start.any (fun s => decide (postDate < s)) then none
  else if o.stop.any (fun e => decide (e < postDate)) then none
  else some (analyticsRecord g now profileId platformsToUse day i dailyCount idx)

/-- The inner `for (let i = 0; i < dailyPostCount && postIndex < totalPosts; i++)`
loop of `generateMockAnalytics`, with `rem` the remaining iterations
(`dailyCount - i`). A filtered-out slot advances `i` but not `postIndex`.
Returns the posts generated this day and the updated `postIndex`. -/
def genDay (g : ℕ → ℚ) (now : ℤ) (profileId : String) (o : AnalyticsOptions)
    (platformsToUse : List SocialPlatform) (totalPosts : ℤ) (day : ℕ)
    (dailyCount : ℤ) : ℕ → ℕ → ℕ → List PostAnalytics × ℕ
  | 0, _, idx => ([], idx)
  | rem + 1, i, idx =>
    if (idx : ℤ) < totalPosts then
      match mkAnalyticsPost g now profileId o platformsToUse day i dailyCount idx with
      | none => genDay g now profileId o platformsToUse totalPosts day dailyCount rem (i + 1) idx
      | some p =>
        let rest := genDay g now profileId o platformsToUse totalPosts day dailyCount rem (i + 1) (idx + 1)
        (p :: rest.1, rest.2)
    else ([], idx)

/-- The outer `for (let day = 0; day < timeRangeDays; day++)` loop of
`generateMockAnalytics`, with `remDays` the remaining day count. Each day
recomputes `dailyPostCount = min(postsPerDay, totalPosts - postIndex)`. -/
def genDays (g : ℕ → ℚ) (now : ℤ) (profileId : String) (o : AnalyticsOptions)
    (platformsToUse : List SocialPlatform) (totalPosts postsPerDay : ℤ) :
    ℕ → ℕ → ℕ → List PostAnalytics
  | 0, _, _ => []
  | remDays + 1, day, idx =>
    let dailyCount : ℤ := min postsPerDay (totalPosts - idx)
    let r := genDay g now profileId o platformsToUse totalPosts day dailyCount
      dailyCount.toNat 0 idx
    r.1 ++ genDays g now profileId o platformsToUse totalPosts postsPerDay remDays (day + 1) r.2

/-- The comparator of the final `analytics.sort((a, b) => bTime - aTime)`
(descending `publishedAt`). -/
def newerFirst (a b : PostAnalytics) : Bool :=
  decide (b.publishedAt ≤ a.publishedAt)

/-- The `platformsToUse` computation of `generateMockAnalytics`: a
non-empty caller-supplied platform list (filtered against the four known
platforms) or all four platforms. -/
def activePlatforms (o : AnalyticsOptions) : List SocialPlatform :=
  match o.platforms with
  | some l => if 0 < l.length then l.filter (fun p => allPlatforms.contains p)
              else allPlatforms
  | none => allPlatforms

/-- The private `generateMockAnalytics` method: the batch analytics
generator. Produces posts distributed over the time range, cycling through
the active platforms, and returns them sorted newest-first. -/
def generateMockAnalytics (g : ℕ → ℚ) (now : ℤ) (profileId : String)
    (o : AnalyticsOptions) : List PostAnalytics :=
  let timeRangeDays := getTimeRangeDays o
  let totalPosts := calculatePostCount timeRangeDays o
  let postsPerDay := jsCeilDiv totalPosts timeRangeDays
  (genDays g now profileId o (activePlatforms o) totalPosts postsPerDay
    timeRangeDays.toNat 0 0).mergeSort newerFirst

/-- The private `generateMockSummary` method: derives every figure from
the post list that `generateMockAnalytics` produces for the same inputs. -/
def generateMockSummary (g : ℕ → ℚ) (now : ℤ) (profileId : String)
    (o : AnalyticsOptions) : AnalyticsSummary :=
  let posts := generateMockAnalytics g now profileId o
  let totalEngagement := (posts.map (fun p => p.metrics.total)).sum
  let avgEngagementRate : ℚ :=
    if 0 < posts.length then (posts.map (·.engagementRate)).sum / (posts.length : ℚ)
    else 0
  let bestPost : Option PostAnalytics :=
    posts.head?.map (fun p0 => posts.foldl
      (fun best cur => if best.engagementRate < cur.engagementRate then cur else best) p0)
  let platformBreakdown :=
    (allPlatforms.map (fun platform =>
      let platformPosts := posts.filter (fun post => post.service == platform)
      let platformEngagement := (platformPosts.map (·.engagementRate)).sum
      let avgRate : ℚ :=
        if 0 < platformPosts.length then platformEngagement / (platformPosts.length : ℚ)
        else 0
      let totalReach := (platformPosts.map (·.reach)).sum
      { platform := platform, postCount := platformPosts.length,
        engagementRate := avgRate, reach := totalReach : PlatformBreakdown })).filter
      (fun item => decide (0 < item.postCount))
  { profileId := profileId,
    timeRange := o.timeRange.getD .d30,
    totalPosts := posts.length,
    totalEngagement := totalEngagement,
    averageEngagementRate := avgEngagementRate,
    bestPerformingPost :=
      jsOrStr (bestPost.map (·.postId)) ("post_" ++ profileId ++ "_best"),
    topPerformingTime := "14:00",
    topMetrics := { likes := (posts.map (fun p => p.metrics.likes)).sum,
                    comments := (posts.map (fun p => p.metrics.comments)).sum,
                    shares := (posts.map (fun p => p.metrics.shares)).sum,
                    clicks := (posts.map (fun p => p.metrics.clicks)).sum,
                    reach := (posts.map (·.reach)).sum,
                    impressions := (posts.map (·.impressions)).sum },
    platformBreakdown := platformBreakdown,
    trending := { direction := if 1/20 < avgEngagementRate then "up" else "down",
                  percentage := ⌊g (3 * posts.length) * 20⌋ + 5 } }

/-- The simulation branch of `analytics.posts` (through
`executeAnalyticsRequest`): options are completed, then handed to the
batch generator. -/
def analyticsPostsMock (g : ℕ → ℚ) (now : ℤ) (profileId : String)
    (o : AnalyticsOptions) : List PostAnalytics :=
  generateMockAnalytics g now profileId (createCompleteAnalyticsOptions now o)

/-- The simulation branch of `analytics.summary` (through
`executeAnalyticsRequest`). -/
def analyticsSummaryMock (g : ℕ → ℚ) (now : ℤ) (profileId : String)
    (o : AnalyticsOptions) : AnalyticsSummary :=
  generateMockSummary g now profileId (createCompleteAnalyticsOptions now o)

/-- The `AuthTokens` payload of the token endpoint's envelope. -/
structure AuthTokens where
  access_token : String
  token_type : String
  refresh_token : Option String := none
deriving DecidableEq, Repr

/-- The body of the token endpoint's response, as read by `initialize`
(`response?.data.access_token`): an envelope with a `data` payload. -/
structure TokenResponseBody where
  success : Bool
  data : AuthTokens
deriving DecidableEq, Repr

/-- The `bufferSDK` part of the client configuration. -/
structure BufferSDKConfig where
  clientId : String
  clientSecret : String
  redirectUri : String
  sdkMockMode : Bool
deriving DecidableEq, Repr

/-- The partial `BufferClientConfig` accepted by the constructor. -/
structure BufferClientConfig where
  accessToken : Option String := none
  baseUrl : Option String := none
  timeout : Option ℤ := none
  retryAttempts : Option ℕ := none
  retryDelay : Option ℤ := none
  rateLimit : Option RateLimitConfig := none
  bufferSDK : BufferSDKConfig
deriving DecidableEq, Repr

/-- The `RetryConfig` derived during initialization. -/
structure RetryConfig where
  attempts : ℕ
  delay : ℤ
  backoffFactor : ℤ
deriving DecidableEq, Repr

/-- The state of a fully initialized client: the normalized configuration
plus the retry and rate-limit bookkeeping it owns. -/
structure ClientState where
  accessToken : String
  baseUrl : String
  timeout : ℤ
  retryAttempts : ℕ
  retryDelay : ℤ
  rateLimit : RateLimitConfig
  retryConfig : RetryConfig
  rateLimitState : RateLimitState
deriving DecidableEq, Repr

/-- The private `exchangeCodeForTokens` method: one direct
`httpClient.post` to the token endpoint (not routed through
`retryRequest`). `post i` is the outcome of the `i`-th transport call; the
second component counts the transport calls made. -/
def exchangeCodeForTokens (post : ℕ → Except ClientError TokenResponseBody) :
    Except ClientError TokenResponseBody × ℕ :=
  (post 0, 1)

/-- The public `initialize` method: it always performs the token exchange
first (even when `accessToken` is supplied in the configuration, which is
simply never read), then normalizes the configuration defaults and resets
the rate-limit window. A failed exchange propagates immediately. Returns
the resulting state (or error) together with the number of transport
calls made. -/
def initClient (now : ℤ) (cfg : BufferClientConfig)
    (post : ℕ → Except ClientError TokenResponseBody) :
    Except ClientError ClientState × ℕ :=
  let ex := exchangeCodeForTokens post
  match ex.1 with
  | .error e => (.error e, ex.2)
  | .ok body =>
    let retryAttempts := jsOrNat cfg.retryAttempts 3
    let retryDelay := jsOrInt cfg.retryDelay 1000
    let window := jsOrInt (cfg.rateLimit.map (·.window)) 3600000
    (.ok { accessToken := body.data.access_token,
           baseUrl := "http://localhost:8083/api/v1/sdk",
           timeout := jsOrInt cfg.timeout 10000,
           retryAttempts := retryAttempts,
           retryDelay := retryDelay,
           rateLimit := { requests := jsOrNat (cfg.rateLimit.map (·.requests)) 100,
                          window := window },
           retryConfig := { attempts := retryAttempts, delay := retryDelay,
                            backoffFactor := 2 },
           rateLimitState := { requests := 0, resetTime := now + window } },
     ex.2)

/-! ## Helper lemmas -/

theorem runRateChecks_in_window (cfg : RateLimitConfig) (rt : ℤ) :
    ∀ (ts : List ℤ) (k : ℕ), (∀ t ∈ ts, t ≤ rt) → k + ts.length ≤ cfg.requests →
      runRateChecks cfg ⟨k, rt⟩ ts = (⟨k + ts.length, rt⟩, ts.map fun _ => none) := by
  intro ts
  induction ts with
  | nil => intro k _ _; simp [runRateChecks]
  | cons t ts ih =>
    intro k hmem hlen
    have ht : t ≤ rt := hmem t (List.mem_cons_self t ts)
    have hk : k < cfg.requests := by simp at hlen; omega
    have hstep : checkRateLimit cfg t ⟨k, rt⟩ = (⟨k + 1, rt⟩, none) := by
      simp [checkRateLimit, not_lt.mpr ht, not_le.mpr hk]
    have hrest := ih (k + 1) (fun u hu => hmem u (List.mem_cons_of_mem _ hu))
      (by simp at hlen ⊢; omega)
    simp only [runRateChecks, hstep, hrest, List.map_cons, List.length_cons]
    exact congrArg (fun n => ((⟨n, rt⟩ : RateLimitState), none :: ts.map fun _ => none))
      (by omega)

theorem retryAux_all_fail {α : Type} (N : ℕ) (fn : ℕ → Except ClientError α)
    (hfail : ∀ i, ∃ e, fn i = .error e ∧ propagatesImmediately e = false) :
    ∀ (fuel current : ℕ), current ≤ N → N ≤ current + fuel →
      retryAux N fn current fuel = (fn N, N) := by
  intro fuel
  induction fuel with
  | zero =>
    intro current h1 h2
    have : current = N := by omega
    subst this
    simp [retryAux]
  | succ fuel ih =>
    intro current h1 h2
    obtain ⟨e, he, hp⟩ := hfail current
    by_cases hc : current = N
    · subst hc
      simp [retryAux, he, hp]
    · have hlt : current < N := lt_of_le_of_ne h1 hc
      simp only [retryAux, he, not_le.mpr hlt, if_false, hp, if_neg]
      simpa using ih (current + 1) hlt (by omega)

/-! ## Claims about the rate limiter and the retry wrapper -/

/-- **C3**: with quota `requests` per window, `requests` checks inside one
window all succeed, each incrementing the counter by one; the
`(requests+1)`-th check inside the window fails with a
`RATE_LIMIT_EXCEEDED` error carrying the remaining wait (and leaves the
counter unchanged); and a check issued after the stored `resetTime` has
passed resets the counter to 0, sets `resetTime := now + window`, and
succeeds (leaving the counter at 1). -/
theorem rateLimit_window_spec (cfg : RateLimitConfig) (rt : ℤ) (ts : List ℤ)
    (tLast tNext : ℤ) (hq : 0 < cfg.requests) (hlen : ts.length = cfg.requests)
    (hts : ∀ t ∈ ts, t ≤ rt) (hLast : tLast ≤ rt) (hNext : rt < tNext) :
    runRateChecks cfg ⟨0, rt⟩ ts = (⟨cfg.requests, rt⟩, ts.map fun _ => none) ∧
    checkRateLimit cfg tLast ⟨cfg.requests, rt⟩ =
      (⟨cfg.requests, rt⟩,
       some { code := "RATE_LIMIT_EXCEEDED",
              message := "Rate limit exceeded. Try again in " ++
                toString ⌈((rt - tLast : ℤ) : ℚ) / 1000⌉ ++ " seconds.",
              statusCode := some 429 }) ∧
    checkRateLimit cfg tNext ⟨cfg.requests, rt⟩ =
      (⟨1, tNext + cfg.window⟩, none) := by
  refine ⟨?_, ?_, ?_⟩
  · have h := runRateChecks_in_window cfg rt ts 0 hts (by omega)
    simpa [hlen] using h
  · simp [checkRateLimit, not_lt.mpr hLast]
  · simp [checkRateLimit, hNext, not_le.mpr hq]

unseal Rat.add Rat.sub Rat.mul Rat.inv in
/-- Witness for C3 at a concrete quota-2 configuration. -/
theorem rateLimit_window_spec_witness :
    runRateChecks ⟨2, 1000⟩ ⟨0, 5000⟩ [100, 200] = (⟨2, 5000⟩, [none, none]) ∧
    checkRateLimit ⟨2, 1000⟩ 300 ⟨2, 5000⟩ =
      (⟨2, 5000⟩, some { code := "RATE_LIMIT_EXCEEDED",
                         message := "Rate limit exceeded. Try again in 5 seconds.",
                         statusCode := some 429 }) ∧
    checkRateLimit ⟨2, 1000⟩ 6000 ⟨2, 5000⟩ = (⟨1, 7000⟩, none) := by
  have h := rateLimit_window_spec ⟨2, 1000⟩ 5000 [100, 200] 300 6000
    (by decide) (by decide) (by decide) (by decide) (by decide)
  exact ⟨h.1, h.2.1.trans (by decide), h.2.2⟩

/-- **C4**: if every attempt fails with a `BufferAPIError` whose code is
retryable, `retryRequest` makes exactly `N` attempts and propagates the
last error; if the first attempt fails with a `BufferAPIError` whose code
is not retryable, exactly one attempt is made and that error propagates
immediately. -/
theorem retryRequest_attempt_counts {α : Type} (N : ℕ)
    (fn : ℕ → Except ClientError α) (hN : 1 ≤ N) :
    ((∀ i, ∃ e, fn i = Except.error (.api e) ∧ e.code ∈ retryableCodes) →
      retryRequest N fn = (fn N, N)) ∧
    (∀ e, fn 1 = Except.error (.api e) → e.code ∉ retryableCodes →
      retryRequest N fn = (Except.error (.api e), 1)) := by
  constructor
  · intro hfail
    refine retryAux_all_fail N fn ?_ N 1 hN (by omega)
    intro i
    obtain ⟨e, he, hc⟩ := hfail i
    refine ⟨.api e, he, ?_⟩
    simp [propagatesImmediately, List.contains, List.elem_eq_mem, hc]
  · intro e he hc
    have hprop : propagatesImmediately (.api e) = true := by
      simp [propagatesImmediately, List.contains, List.elem_eq_mem, hc]
    obtain ⟨m, rfl⟩ := Nat.exists_eq_add_of_le hN
    cases m with
    | zero => simp [retryRequest, retryAux, he]
    | succ m =>
      simp [retryRequest, retryAux, he, hprop, show ¬(1 + (m + 1) ≤ 1) by omega]

/-- Witness for C4: two attempts with an always-failing network error, one
attempt with a not-found error. -/
theorem retryRequest_attempt_counts_witness :
    retryRequest 2 (fun _ =>
        (Except.error (.api ⟨"NETWORK_ERROR", "No response received from Buffer API", none⟩) :
          Except ClientError Unit)) =
      (Except.error (.api ⟨"NETWORK_ERROR", "No response received from Buffer API", none⟩), 2) ∧
    retryRequest 2 (fun _ =>
        (Except.error (.api ⟨"PROFILE_NOT_FOUND", "Profile p not found", some 404⟩) :
          Except ClientError Unit)) =
      (Except.error (.api ⟨"PROFILE_NOT_FOUND", "Profile p not found", some 404⟩), 1) := by
  constructor
  · exact (retryRequest_attempt_counts 2 _ (by decide)).1
      (fun i => ⟨⟨"NETWORK_ERROR", "No response received from Buffer API", none⟩, rfl, by decide⟩)
  · exact (retryRequest_attempt_counts 2 _ (by decide)).2
      ⟨"PROFILE_NOT_FOUND", "Profile p not found", some 404⟩ rfl (by decide)

/-- **C9**: a thrown value that is not a `BufferAPIError` bypasses the
retryable-code filter entirely: when every attempt fails with such an
error, `retryRequest` retries up to the full `N` attempts and propagates
the last error. -/
theorem retryRequest_nonBuffer_retried {α : Type} (N : ℕ)
    (fn : ℕ → Except ClientError α) (hN : 1 ≤ N)
    (hfail : ∀ i, ∃ msg, fn i = Except.error (.other msg)) :
    retryRequest N fn = (fn N, N) := by
  refine retryAux_all_fail N fn ?_ N 1 hN (by omega)
  intro i
  obtain ⟨msg, he⟩ := hfail i
  exact ⟨.other msg, he, rfl⟩

/-- Witness for C9: a plain local exception is retried for all 3 attempts. -/
theorem retryRequest_nonBuffer_retried_witness :
    retryRequest 3 (fun _ => (Except.error (.other "boom") : Except ClientError Unit)) =
      (Except.error (.other "boom"), 3) :=
  retryRequest_nonBuffer_retried 3 _ (by decide) (fun _ => ⟨"boom", rfl⟩)

/-! ## Claims about the simulation-mode operations -/

/-- **C5** (amended): in simulation mode, `profiles.get` honors the
not-found contract — any id outside the 4-entry mock catalog fails with
`PROFILE_NOT_FOUND` — but `posts.get` does not: it fabricates a mock post
for every requested id and always succeeds. -/
theorem simulation_not_found (pid : String) (now : ℤ) (postId : String)
    (hp : pid ∉ ["profile_x_001", "profile_linkedin_002",
                 "profile_facebook_003", "profile_instagram_004"]) :
    profilesGetMock pid =
      .error { code := "PROFILE_NOT_FOUND",
               message := "Profile " ++ pid ++ " not found",
               statusCode := some 404 } ∧
    postsGetMock now postId = .ok (generateMockPost now postId none) := by
  constructor
  · simp only [List.mem_cons, List.not_mem_nil, or_false, not_or] at hp
    obtain ⟨h1, h2, h3, h4⟩ := hp
    have e1 : ("profile_x_001" == pid) = false := beq_eq_false_iff_ne.mpr (Ne.symm h1)
    have e2 : ("profile_linkedin_002" == pid) = false := beq_eq_false_iff_ne.mpr (Ne.symm h2)
    have e3 : ("profile_facebook_003" == pid) = false := beq_eq_false_iff_ne.mpr (Ne.symm h3)
    have e4 : ("profile_instagram_004" == pid) = false := beq_eq_false_iff_ne.mpr (Ne.symm h4)
    simp [profilesGetMock, generateMockProfiles, List.find?, e1, e2, e3, e4]
  · rfl

/-- Counterexample to C5 as stated: in simulation mode `posts.get` on an
id with no simulation match does not fail with a `*_NOT_FOUND` error — it
silently succeeds with a fabricated post. -/
theorem postsGetMock_succeeds_on_unknown_id :
    postsGetMock 1700000000000 "definitely_not_a_post" =
      .ok { id := "definitely_not_a_post",
            profile_id := "profile_mock_001",
            status := .buffer,
            text := "Mock post content for definitely_not_a_post",
            text_formatted := "Mock post content for definitely_not_a_post",
            created_at := 1700000000000,
            due_at := some 1700003600000,
            sent_at := none,
            statistics := some ⟨0, 0, 0, 0, 0, 0, 0⟩ } := rfl

/-- Witness for C5 at a concrete absent profile id. -/
theorem simulation_not_found_witness :
    profilesGetMock "profile_unknown_999" =
      .error { code := "PROFILE_NOT_FOUND",
               message := "Profile profile_unknown_999 not found",
               statusCode := some 404 } ∧
    postsGetMock 0 "p0" = .ok (generateMockPost 0 "p0" none) := by
  have h := simulation_not_found "profile_unknown_999" 0 "p0" (by decide)
  exact ⟨h.1.trans (by rfl), h.2⟩

/-- **C10**: `posts.create` in simulation mode ignores the requested
profile id (the post belongs to the fixed `profile_mock_001`), mints the
id `mock_<Date.now()>`, returns status `buffer` with all statistics
fields zero, and echoes the caller-supplied text when it is non-empty. -/
theorem posts_create_mock_spec (now : ℤ) (profileId : String)
    (data : CreatePostData) :
    ∃ post, postsCreateMock now profileId data = Except.ok post ∧
      post.profile_id = "profile_mock_001" ∧
      post.id = "mock_" ++ toString now ∧
      post.status = .buffer ∧
      post.statistics = some ⟨0, 0, 0, 0, 0, 0, 0⟩ ∧
      (data.text ≠ "" → post.text = data.text) := by
  refine ⟨generateMockPost now ("mock_" ++ toString now) (some data),
    rfl, rfl, rfl, rfl, rfl, ?_⟩
  intro h
  simp [generateMockPost, jsOrStr, h]

/-- Witness for C10 at a concrete creation request. -/
theorem posts_create_mock_spec_witness :
    ∃ post, postsCreateMock 1700000000123 "profile_x_001" { text := "hello" } =
        Except.ok post ∧
      post.profile_id = "profile_mock_001" ∧
      post.id = "mock_1700000000123" ∧
      post.status = .buffer ∧
      post.text = "hello" := by
  obtain ⟨post, h1, h2, h3, h4, h5, h6⟩ :=
    posts_create_mock_spec 1700000000123 "profile_x_001" { text := "hello" }
  exact ⟨post, h1, h2, h3.trans (by decide), h4, h6 (by decide)⟩

/-! ## Claims about initialization -/

/-- Counterexample to C6 as stated: even with an access token supplied
directly in the configuration, initialization still performs the token
exchange (one transport call, not zero) and uses the exchanged token; and
with a transport that fails with a retryable `NETWORK_ERROR` and
`retryAttempts = 3`, the exchange is still attempted exactly once — it is
not routed through the retry mechanism. -/
theorem initClient_counterexample :
    (initClient 0
        { accessToken := some "direct-token", retryAttempts := some 3,
          bufferSDK := ⟨"cid", "csecret", "http://localhost:3000/callback", false⟩ }
        (fun _ => Except.ok ⟨true, ⟨"exchanged-token", "Bearer", none⟩⟩)).2 = 1 ∧
    (initClient 0
        { accessToken := some "direct-token", retryAttempts := some 3,
          bufferSDK := ⟨"cid", "csecret", "http://localhost:3000/callback", false⟩ }
        (fun _ => Except.ok ⟨true, ⟨"exchanged-token", "Bearer", none⟩⟩)).1 =
      Except.ok { accessToken := "exchanged-token",
                  baseUrl := "http://localhost:8083/api/v1/sdk",
                  timeout := 10000, retryAttempts := 3, retryDelay := 1000,
                  rateLimit := ⟨100, 3600000⟩,
                  retryConfig := ⟨3, 1000, 2⟩,
                  rateLimitState := ⟨0, 3600000⟩ } ∧
    (initClient 0
        { accessToken := some "direct-token", retryAttempts := some 3,
          bufferSDK := ⟨"cid", "csecret", "http://localhost:3000/callback", false⟩ }
        (fun _ => Except.error
          (.api ⟨"NETWORK_ERROR", "No response received from Buffer API", none⟩))).2 = 1 := by
  exact ⟨rfl, rfl, rfl⟩

/-- **C6** (amended): initialization always performs the token exchange as
exactly one transport call, whether or not an access token was supplied in
the configuration; on success the client uses the exchanged token, and a
failed exchange propagates immediately (no retry). -/
theorem initClient_always_exchanges (now : ℤ) (cfg : BufferClientConfig)
    (post : ℕ → Except ClientError TokenResponseBody) :
    (initClient now cfg post).2 = 1 ∧
    (∀ body, post 0 = .ok body →
      ∃ st, (initClient now cfg post).1 = .ok st ∧
        st.accessToken = body.data.access_token) ∧
    (∀ e, post 0 = .error e → (initClient now cfg post).1 = .error e) := by
  refine ⟨?_, ?_, ?_⟩
  · cases hp : post 0 <;> simp [initClient, exchangeCodeForTokens, hp]
  · intro body hb
    simp only [initClient, exchangeCodeForTokens, hb]
    exact ⟨_, rfl, rfl⟩
  · intro e he
    simp [initClient, exchangeCodeForTokens, he]

/-- Witness for C6 at a concrete configuration and transport. -/
theorem initClient_always_exchanges_witness :
    (initClient 5 { bufferSDK := ⟨"cid", "cs", "uri", true⟩ }
        (fun _ => Except.ok ⟨true, ⟨"tok", "Bearer", none⟩⟩)).2 = 1 ∧
    ∃ st, (initClient 5 { bufferSDK := ⟨"cid", "cs", "uri", true⟩ }
        (fun _ => Except.ok ⟨true, ⟨"tok", "Bearer", none⟩⟩)).1 = Except.ok st ∧
      st.accessToken = "tok" := by
  have h := initClient_always_exchanges 5 { bufferSDK := ⟨"cid", "cs", "uri", true⟩ }
    (fun _ => Except.ok ⟨true, ⟨"tok", "Bearer", none⟩⟩)
  exact ⟨h.1, h.2.1 ⟨true, ⟨"tok", "Bearer", none⟩⟩ rfl⟩

/-! ## Helper lemmas about the batch analytics generator -/

theorem mkAnalyticsPost_eq_some {g : ℕ → ℚ} {now : ℤ} {pid : String}
    {o : AnalyticsOptions} {pl : List SocialPlatform} {day i : ℕ} {c : ℤ}
    {idx : ℕ} {p : PostAnalytics}
    (h : mkAnalyticsPost g now pid o pl day i c idx = some p) :
    p = analyticsRecord g now pid pl day i c idx ∧
    (∀ s ∈ o.start, s ≤ analyticsPostDate now day i c) ∧
    (∀ e ∈ o.stop, analyticsPostDate now day i c ≤ e) := by
  unfold mkAnalyticsPost at h
  by_cases h1 : o.start.any (fun s => decide (analyticsPostDate now day i c < s))
  · simp [h1] at h
  · by_cases h2 : o.stop.any (fun e => decide (e < analyticsPostDate now day i c))
    · simp [h1, h2] at h
    · simp only [h1, h2, Bool.false_eq_true, if_false, Option.some.injEq] at h
      refine ⟨h.symm, ?_, ?_⟩
      · intro s hs
        rw [Option.mem_def] at hs
        rw [hs] at h1
        simp only [Option.any_some, decide_eq_true_eq] at h1
        omega
      · intro e he
        rw [Option.mem_def] at he
        rw [he] at h2
        simp only [Option.any_some, decide_eq_true_eq] at h2
        omega

theorem genDay_mem_imp {g : ℕ → ℚ} {now : ℤ} {pid : String}
    {o : AnalyticsOptions} {pl : List SocialPlatform} {tp : ℤ} {day : ℕ}
    {c : ℤ} (P : PostAnalytics → Prop)
    (hP : ∀ i idx p, mkAnalyticsPost g now pid o pl day i c idx = some p → P p) :
    ∀ (rem i idx : ℕ), ∀ p ∈ (genDay g now pid o pl tp day c rem i idx).1, P p := by
  intro rem
  induction rem with
  | zero => intro i idx p hp; simp [genDay] at hp
  | succ rem ih =>
    intro i idx p hp
    rw [genDay] at hp
    by_cases hidx : (idx : ℤ) < tp
    · rw [if_pos hidx] at hp
      cases hmk : mkAnalyticsPost g now pid o pl day i c idx with
      | none => rw [hmk] at hp; exact ih (i + 1) idx p hp
      | some q =>
        rw [hmk] at hp
        rcases List.mem_cons.mp hp with rfl | hp
        · exact hP i idx p hmk
        · exact ih (i + 1) (idx + 1) p hp
    · rw [if_neg hidx] at hp
      simp at hp

theorem genDays_mem_imp {g : ℕ → ℚ} {now : ℤ} {pid : String}
    {o : AnalyticsOptions} {pl : List SocialPlatform} {tp ppd : ℤ}
    (P : PostAnalytics → Prop)
    (hP : ∀ day i c idx p, mkAnalyticsPost g now pid o pl day i c idx = some p → P p) :
    ∀ (remDays day idx : ℕ), ∀ p ∈ genDays g now pid o pl tp ppd remDays day idx, P p := by
  intro remDays
  induction remDays with
  | zero => intro day idx p hp; simp [genDays] at hp
  | succ remDays ih =>
    intro day idx p hp
    rw [genDays] at hp
    rcases List.mem_append.mp hp with hp | hp
    · exact genDay_mem_imp P (fun i idx' q => hP day i _ idx' q) _ 0 idx p hp
    · exact ih (day + 1) _ p hp

theorem generateMockAnalytics_mem_imp {g : ℕ → ℚ} {now : ℤ} {pid : String}
    {o : AnalyticsOptions} (P : PostAnalytics → Prop)
    (hP : ∀ day i c idx p,
      mkAnalyticsPost g now pid o (activePlatforms o) day i c idx = some p → P p) :
    ∀ p ∈ generateMockAnalytics g now pid o, P p := by
  intro p hp
  unfold generateMockAnalytics at hp
  rw [List.mem_mergeSort] at hp
  exact genDays_mem_imp P hP _ 0 0 p hp

theorem getBaseEngagement_bounds (p : SocialPlatform) :
    0 < getBaseEngagementForPlatform p ∧ getBaseEngagementForPlatform p ≤ 71/1000 := by
  cases p <;> norm_num [getBaseEngagementForPlatform]

theorem engagementRate_pos_le_one (p : SocialPlatform) (r : ℚ)
    (_h0 : 0 ≤ r) (h1 : r < 1) :
    0 < max (1/100) (getBaseEngagementForPlatform p + (r - 1/2) * (2/100)) ∧
    max (1/100) (getBaseEngagementForPlatform p + (r - 1/2) * (2/100)) ≤ 1 := by
  obtain ⟨-, hb⟩ := getBaseEngagement_bounds p
  constructor
  · exact lt_of_lt_of_le (by norm_num) (le_max_left _ _)
  · apply max_le (by norm_num)
    nlinarith [h1]

theorem getPlatformReach_nonneg (p : SocialPlatform) (r : ℚ) (h0 : 0 ≤ r) :
    0 ≤ getPlatformReach p r := by
  cases p <;>
    (refine Int.le_floor.mpr ?_ ;
     simp only [getPlatformReach, reachRange] ;
     push_cast ;
     nlinarith)

theorem impressions_ge_reach (p : SocialPlatform) (r : ℚ) (h0 : 0 ≤ r)
    (reach : ℤ) (hr : 0 ≤ reach) :
    reach ≤ ⌊(reach : ℚ) * getPlatformImpressionMultiplier p r⌋ := by
  refine Int.le_floor.mpr ?_
  have hm : (1 : ℚ) ≤ getPlatformImpressionMultiplier p r := by
    cases p <;> (simp only [getPlatformImpressionMultiplier, impressionMultiplierBase] ; nlinarith [h0])
  have hrq : (0 : ℚ) ≤ (reach : ℚ) := by exact_mod_cast hr
  nlinarith

/-! ## Claims about generated analytics records -/

/-- **C7** (amended): every record produced by the batch analytics
generator (for a valid random stream) has an engagement rate in `(0, 1]`
and impressions at least as large as reach. (The single-post generator
does not satisfy these invariants; see the counterexample.) -/
theorem batch_analytics_invariants (g : ℕ → ℚ) (now : ℤ) (pid : String)
    (o : AnalyticsOptions) (hg : IsRandomStream g) :
    ∀ p ∈ generateMockAnalytics g now pid o,
      0 < p.engagementRate ∧ p.engagementRate ≤ 1 ∧ p.reach ≤ p.impressions := by
  refine generateMockAnalytics_mem_imp _ ?_
  intro day i c idx p hp
  obtain ⟨rfl, -, -⟩ := mkAnalyticsPost_eq_some hp
  obtain ⟨hv0, hv1⟩ := hg (3 * idx)
  obtain ⟨hr0, hr1⟩ := hg (3 * idx + 1)
  obtain ⟨hm0, hm1⟩ := hg (3 * idx + 2)
  simp only [analyticsRecord]
  obtain ⟨he0, he1⟩ := engagementRate_pos_le_one
    ((activePlatforms _).getD (idx % (activePlatforms _).length) .x) (g (3 * idx)) hv0 hv1
  refine ⟨he0, he1, ?_⟩
  exact impressions_ge_reach _ (g (3 * idx + 2)) hm0 _
    (getPlatformReach_nonneg _ (g (3 * idx + 1)) hr0)

unseal Rat.add Rat.sub Rat.mul Rat.inv in
/-- Counterexample to C7 as stated: the single-post generator behind
`posts.analytics` draws reach and impressions independently, so a valid
`Math.random()` trace (all draws `1/10` except draw 6, which is `9/10` —
every value in `[0, 1)`) yields impressions strictly below reach. -/
theorem singlePost_analytics_violates_invariants :
    (generateMockPostAnalytics (fun i => if i = 6 then (9:ℚ)/10 else 1/10)
        0 "post_1").impressions <
      (generateMockPostAnalytics (fun i => if i = 6 then (9:ℚ)/10 else 1/10)
        0 "post_1").reach ∧
    (generateMockPostAnalytics (fun i => if i = 6 then (9:ℚ)/10 else 1/10)
        0 "post_1").impressions = 1000 ∧
    (generateMockPostAnalytics (fun i => if i = 6 then (9:ℚ)/10 else 1/10)
        0 "post_1").reach = 4500 := by
  refine ⟨?_, ?_, ?_⟩ <;> decide

unseal Rat.add Rat.sub Rat.mul Rat.inv List.merge List.mergeSort in
/-- Witness for C7 on a concrete 2-day, single-platform batch (which is
non-empty). -/
theorem batch_analytics_invariants_witness :
    (generateMockAnalytics (fun _ => (1:ℚ)/2) msPerDay "p1"
        { start := some 0, stop := some (2 * msPerDay), platforms := some [.x],
          period := some "day", timeRange := some .d30 }) ≠ [] ∧
    (generateMockAnalytics (fun _ => (1:ℚ)/2) msPerDay "p1"
        { start := some 0, stop := some (2 * msPerDay), platforms := some [.x],
          period := some "day", timeRange := some .d30 }).all
      (fun p => decide (0 < p.engagementRate) && decide (p.engagementRate ≤ 1) &&
        decide (p.reach ≤ p.impressions)) = true := by
  refine ⟨by decide, ?_⟩
  rw [List.all_eq_true]
  intro p hp
  have h := batch_analytics_invariants (fun _ => (1:ℚ)/2) msPerDay "p1"
    { start := some 0, stop := some (2 * msPerDay), platforms := some [.x],
      period := some "day", timeRange := some .d30 }
    (fun i => by norm_num) p hp
  simp [h.1, h.2.1, h.2.2]

/-- **C8**: every record produced by the batch analytics generator for the
`x` platform carries a `retweets` field and no `saves` field, and every
record for the `instagram` platform carries a `saves` field and no
`retweets` field. -/
theorem platform_metric_shape (g : ℕ → ℚ) (now : ℤ) (pid : String)
    (o : AnalyticsOptions) :
    ∀ p ∈ generateMockAnalytics g now pid o,
      (p.service = .x → p.metrics.retweets.isSome = true ∧ p.metrics.saves = none) ∧
      (p.service = .instagram → p.metrics.saves.isSome = true ∧ p.metrics.retweets = none) := by
  refine generateMockAnalytics_mem_imp _ ?_
  intro day i c idx p hp
  obtain ⟨rfl, -, -⟩ := mkAnalyticsPost_eq_some hp
  simp only [analyticsRecord]
  constructor <;> intro hs <;> rw [hs] <;> simp [generatePlatformMetrics]

unseal Rat.add Rat.sub Rat.mul Rat.inv List.merge List.mergeSort in
/-- Witness for C8 on a concrete batch containing both an `x` post and an
`instagram` post. -/
theorem platform_metric_shape_witness :
    (generateMockAnalytics (fun _ => (1:ℚ)/2) msPerDay "p1"
        { start := some 0, stop := some (2 * msPerDay),
          platforms := some [.x, .instagram],
          period := some "day", timeRange := some .d30 }).any
        (fun p => p.service == .x) = true ∧
    (generateMockAnalytics (fun _ => (1:ℚ)/2) msPerDay "p1"
        { start := some 0, stop := some (2 * msPerDay),
          platforms := some [.x, .instagram],
          period := some "day", timeRange := some .d30 }).any
        (fun p => p.service == .instagram) = true ∧
    (generateMockAnalytics (fun _ => (1:ℚ)/2) msPerDay "p1"
        { start := some 0, stop := some (2 * msPerDay),
          platforms := some [.x, .instagram],
          period := some "day", timeRange := some .d30 }).all
      (fun p => decide ((p.service = .x → p.metrics.retweets.isSome = true ∧ p.metrics.saves = none) ∧
        (p.service = .instagram → p.metrics.saves.isSome = true ∧ p.metrics.retweets = none))) = true := by
  refine ⟨by decide, by decide, ?_⟩
  rw [List.all_eq_true]
  intro p hp
  have h := platform_metric_shape (fun _ => (1:ℚ)/2) msPerDay "p1"
    { start := some 0, stop := some (2 * msPerDay),
      platforms := some [.x, .instagram],
      period := some "day", timeRange := some .d30 } p hp
  exact decide_eq_true h

/-! ## The summary is an aggregation of the generated posts -/

theorem foldl_best_spec (l : List PostAnalytics) (a : PostAnalytics) :
    (l.foldl (fun best cur =>
        if best.engagementRate < cur.engagementRate then cur else best) a = a ∨
     l.foldl (fun best cur =>
        if best.engagementRate < cur.engagementRate then cur else best) a ∈ l) ∧
    a.engagementRate ≤ (l.foldl (fun best cur =>
        if best.engagementRate < cur.engagementRate then cur else best) a).engagementRate ∧
    ∀ q ∈ l, q.engagementRate ≤ (l.foldl (fun best cur =>
        if best.engagementRate < cur.engagementRate then cur else best) a).engagementRate := by
  induction l generalizing a with
  | nil => simp
  | cons c t ih =>
    simp only [List.foldl_cons]
    set a' := if a.engagementRate < c.engagementRate then c else a with ha'
    obtain ⟨hmem, hle, hall⟩ := ih a'
    have haa : a.engagementRate ≤ a'.engagementRate := by
      rw [ha']; split
      · exact le_of_lt (by assumption)
      · exact le_refl _
    have hca : c.engagementRate ≤ a'.engagementRate := by
      rw [ha']; split
      · exact le_refl _
      · exact le_of_not_lt (by assumption)
    refine ⟨?_, le_trans haa hle, ?_⟩
    · rcases hmem with h | h
      · rw [h, ha']
        split
        · exact Or.inr (List.mem_cons_self _ _)
        · exact Or.inl rfl
      · exact Or.inr (List.mem_cons_of_mem _ h)
    · intro q hq
      rcases List.mem_cons.mp hq with rfl | hq
      · exact le_trans hca hle
      · exact hall q hq

theorem generateMockAnalytics_postId_ne_empty (g : ℕ → ℚ) (now : ℤ)
    (pid : String) (o : AnalyticsOptions) :
    ∀ p ∈ generateMockAnalytics g now pid o, p.postId ≠ "" := by
  refine generateMockAnalytics_mem_imp _ ?_
  intro day i c idx p hp
  obtain ⟨rfl, -, -⟩ := mkAnalyticsPost_eq_some hp
  simp only [analyticsRecord]
  intro h
  have hlen := congrArg String.length h
  rw [String.length_append, String.length_append, String.length_append] at hlen
  have h5 : ("post_" : String).length = 5 := rfl
  simp [h5] at hlen

/-- **C1**: in simulation mode the summary is derived by aggregating the
exact post set that batch analytics generation produces for the same
inputs: `totalPosts` is the number of generated records, `totalEngagement`
the sum of all metric-bag values across them, `averageEngagementRate` the
arithmetic mean of their per-post rates, and `bestPerformingPost` the id
of a generated record of maximal engagement rate (the latter two whenever
at least one record is generated). -/
theorem summary_consistency (g : ℕ → ℚ) (now : ℤ) (pid : String)
    (o : AnalyticsOptions) :
    (analyticsSummaryMock g now pid o).totalPosts =
      (analyticsPostsMock g now pid o).length ∧
    (analyticsSummaryMock g now pid o).totalEngagement =
      ((analyticsPostsMock g now pid o).map (fun p => p.metrics.total)).sum ∧
    (analyticsPostsMock g now pid o ≠ [] →
      (analyticsSummaryMock g now pid o).averageEngagementRate =
        ((analyticsPostsMock g now pid o).map (·.engagementRate)).sum /
          ((analyticsPostsMock g now pid o).length : ℚ) ∧
      ∃ p ∈ analyticsPostsMock g now pid o,
        (analyticsSummaryMock g now pid o).bestPerformingPost = p.postId ∧
        ∀ q ∈ analyticsPostsMock g now pid o,
          q.engagementRate ≤ p.engagementRate) := by
  refine ⟨rfl, rfl, ?_⟩
  intro hne
  constructor
  · show (if 0 < (analyticsPostsMock g now pid o).length then
        ((analyticsPostsMock g now pid o).map (·.engagementRate)).sum /
          ((analyticsPostsMock g now pid o).length : ℚ)
      else 0) = _
    rw [if_pos (List.length_pos.mpr hne)]
  · obtain ⟨p0, t, hcons⟩ := List.exists_cons_of_ne_nil hne
    have hfold := foldl_best_spec (analyticsPostsMock g now pid o) p0
    set b := (analyticsPostsMock g now pid o).foldl
      (fun best cur => if best.engagementRate < cur.engagementRate then cur else best) p0
      with hb
    have hbmem : b ∈ analyticsPostsMock g now pid o := by
      rcases hfold.1 with h | h
      · rw [h, hcons]; exact List.mem_cons_self _ _
      · exact h
    have hbid : b.postId ≠ "" :=
      generateMockAnalytics_postId_ne_empty g now pid _ b hbmem
    refine ⟨b, hbmem, ?_, fun q hq => hfold.2.2 q hq⟩
    show jsOrStr (((analyticsPostsMock g now pid o).head?.map
        (fun q0 => (analyticsPostsMock g now pid o).foldl
          (fun best cur => if best.engagementRate < cur.engagementRate then cur else best)
          q0)).map (·.postId)) ("post_" ++ pid ++ "_best") = b.postId
    rw [hcons, List.head?_cons]
    simp only [Option.map_some']
    rw [← hcons, ← hb]
    simp only [jsOrStr]
    exact if_neg hbid

unseal Rat.add Rat.sub Rat.mul Rat.inv List.merge List.mergeSort in
/-- Witness for C1 on a concrete, non-empty two-post batch. -/
theorem summary_consistency_witness :
    (analyticsPostsMock (fun _ => (1:ℚ)/2) msPerDay "p1"
        { start := some 0, stop := some (2 * msPerDay),
          platforms := some [.x] }).length = 2 ∧
    (analyticsSummaryMock (fun _ => (1:ℚ)/2) msPerDay "p1"
        { start := some 0, stop := some (2 * msPerDay),
          platforms := some [.x] }).totalPosts =
      (analyticsPostsMock (fun _ => (1:ℚ)/2) msPerDay "p1"
        { start := some 0, stop := some (2 * msPerDay),
          platforms := some [.x] }).length ∧
    (analyticsSummaryMock (fun _ => (1:ℚ)/2) msPerDay "p1"
        { start := some 0, stop := some (2 * msPerDay),
          platforms := some [.x] }).totalEngagement =
      ((analyticsPostsMock (fun _ => (1:ℚ)/2) msPerDay "p1"
        { start := some 0, stop := some (2 * msPerDay),
          platforms := some [.x] }).map (fun p => p.metrics.total)).sum ∧
    (analyticsSummaryMock (fun _ => (1:ℚ)/2) msPerDay "p1"
        { start := some 0, stop := some (2 * msPerDay),
          platforms := some [.x] }).averageEngagementRate =
      ((analyticsPostsMock (fun _ => (1:ℚ)/2) msPerDay "p1"
        { start := some 0, stop := some (2 * msPerDay),
          platforms := some [.x] }).map (·.engagementRate)).sum /
        ((analyticsPostsMock (fun _ => (1:ℚ)/2) msPerDay "p1"
          { start := some 0, stop := some (2 * msPerDay),
            platforms := some [.x] }).length : ℚ) := by
  have h := summary_consistency (fun _ => (1:ℚ)/2) msPerDay "p1"
    { start := some 0, stop := some (2 * msPerDay), platforms := some [.x] }
  exact ⟨by decide, h.1, h.2.1, (h.2.2 (by decide)).1⟩

/-! ## The 7-day time-window scenario -/

theorem dayFloor_sub_30 (now : ℤ) :
    dayFloor (now - 30 * msPerDay) = dayFloor now - 30 * msPerDay := by
  unfold dayFloor
  have h : (now - 30 * msPerDay) % msPerDay = now % msPerDay := by
    conv_lhs => rw [Int.sub_emod]
    rw [Int.mul_emod_left]
    simp [Int.emod_emod_of_dvd]
  rw [h]
  ring

theorem dayFloor_le (t : ℤ) : dayFloor t ≤ t := by
  unfold dayFloor
  have : 0 ≤ t % msPerDay := Int.emod_nonneg t (by norm_num [msPerDay])
  omega

theorem completeOptions_d7 (now : ℤ) :
    createCompleteAnalyticsOptions now { timeRange := some .d7 } =
      { timeRange := some .d7, platforms := none, groupBy := none,
        start := some (dayFloor now - 30 * msPerDay),
        stop := some (dayFloor now), period := some "day" } := by
  simp [createCompleteAnalyticsOptions, jsOrStr, dayFloor_sub_30]

theorem analyticsPostDate_c4 (now : ℤ) (day i : ℕ) :
    analyticsPostDate now day i 4 = now - day * msPerDay - i * 21600000 := by
  unfold analyticsPostDate jsTrunc
  have hcast : (now : ℚ) - (day : ℚ) * (msPerDay : ℚ) -
      (i : ℚ) * ((msPerDay : ℚ) / (((4:ℤ)) : ℚ)) =
      ((now - day * msPerDay - i * 21600000 : ℤ) : ℚ) := by
    push_cast [msPerDay]
    ring_nf
  rw [hcast]
  split
  · exact Int.ceil_intCast _
  · exact Int.floor_intCast _

theorem genDay_d7_spec (g : ℕ → ℚ) (now : ℤ) (pid : String)
    (o : AnalyticsOptions) (day : ℕ) :
    ∀ (rem i idx : ℕ),
      (∀ p ∈ (genDay g now pid o allPlatforms 120 day 4 rem i idx).1,
        ∃ j, i ≤ j ∧ j < i + rem ∧
          p.publishedAt = now - day * msPerDay - j * 21600000 ∧
          (∀ s ∈ o.start, s ≤ p.publishedAt) ∧
          (∀ e ∈ o.stop, p.publishedAt ≤ e)) ∧
      (genDay g now pid o allPlatforms 120 day 4 rem i idx).1.Pairwise
        (fun a b => b.publishedAt < a.publishedAt) ∧
      idx ≤ (genDay g now pid o allPlatforms 120 day 4 rem i idx).2 ∧
      (genDay g now pid o allPlatforms 120 day 4 rem i idx).2 ≤ idx + rem := by
  intro rem
  induction rem with
  | zero =>
    intro i idx
    simp [genDay]
  | succ rem ih =>
    intro i idx
    rw [genDay]
    by_cases hidx : ((idx : ℤ) < 120)
    · rw [if_pos hidx]
      cases hmk : mkAnalyticsPost g now pid o allPlatforms day i 4 idx with
      | none =>
        dsimp only
        obtain ⟨hmem, hpw, hlo, hhi⟩ := ih (i + 1) idx
        refine ⟨?_, hpw, hlo, by omega⟩
        intro p hp
        obtain ⟨j, hj1, hj2, hj3, hj4, hj5⟩ := hmem p hp
        exact ⟨j, by omega, by omega, hj3, hj4, hj5⟩
      | some q =>
        dsimp only
        obtain ⟨hq, hstart, hstop⟩ := mkAnalyticsPost_eq_some hmk
        have hqproj : q.publishedAt = analyticsPostDate now day i 4 := by
          rw [hq]; rfl
        have hqpub : q.publishedAt = now - day * msPerDay - i * 21600000 :=
          hqproj.trans (analyticsPostDate_c4 now day i)
        obtain ⟨hmem, hpw, hlo, hhi⟩ := ih (i + 1) (idx + 1)
        refine ⟨?_, ?_, by omega, by omega⟩
        · intro p hp
          rcases List.mem_cons.mp hp with rfl | hp
          · exact ⟨i, le_refl _, by omega, hqpub,
              fun s hs => hqproj ▸ hstart s hs,
              fun e he => hqproj ▸ hstop e he⟩
          · obtain ⟨j, hj1, hj2, hj3, hj4, hj5⟩ := hmem p hp
            exact ⟨j, by omega, by omega, hj3, hj4, hj5⟩
        · rw [List.pairwise_cons]
          refine ⟨?_, hpw⟩
          intro b hb
          obtain ⟨j, hj1, hj2, hj3, -, -⟩ := hmem b hb
          rw [hj3, hqpub]
          have hij : (i : ℤ) < (j : ℤ) := by exact_mod_cast (by omega : i < j)
          have := mul_lt_mul_of_pos_right hij (by norm_num : (0:ℤ) < 21600000)
          linarith
    · rw [if_neg hidx]
      exact ⟨by simp, by simp, le_refl _, by omega⟩

theorem genDays_d7_spec (g : ℕ → ℚ) (now : ℤ) (pid : String)
    (o : AnalyticsOptions) :
    ∀ (remDays day idx : ℕ), day + remDays ≤ 30 → idx ≤ 4 * day →
      (∀ p ∈ genDays g now pid o allPlatforms 120 4 remDays day idx,
        ∃ (d j : ℕ), day ≤ d ∧ d < day + remDays ∧ j < 4 ∧
          p.publishedAt = now - d * msPerDay - j * 21600000 ∧
          (∀ s ∈ o.start, s ≤ p.publishedAt) ∧
          (∀ e ∈ o.stop, p.publishedAt ≤ e)) ∧
      (genDays g now pid o allPlatforms 120 4 remDays day idx).Pairwise
        (fun a b => b.publishedAt < a.publishedAt) := by
  intro remDays
  induction remDays with
  | zero =>
    intro day idx _ _
    simp [genDays]
  | succ remDays ih =>
    intro day idx hday hidx
    rw [genDays]
    have hc : min (4:ℤ) (120 - (idx : ℤ)) = 4 := min_eq_left (by omega)
    simp only [hc, Int.toNat_ofNat]
    obtain ⟨hdmem, hdpw, hdlo, hdhi⟩ := genDay_d7_spec g now pid o day 4 0 idx
    obtain ⟨hmem', hpw'⟩ := ih (day + 1)
      (genDay g now pid o allPlatforms 120 day 4 4 0 idx).2 (by omega) (by omega)
    constructor
    · intro p hp
      rcases List.mem_append.mp hp with hp | hp
      · obtain ⟨j, hj0, hj4, hjpub, hjs, hje⟩ := hdmem p hp
        exact ⟨day, j, le_refl _, by omega, by omega, hjpub, hjs, hje⟩
      · obtain ⟨d, j, hd1, hd2, hj, hjpub, hjs, hje⟩ := hmem' p hp
        exact ⟨d, j, by omega, by omega, hj, hjpub, hjs, hje⟩
    · rw [List.pairwise_append]
      refine ⟨hdpw, hpw', ?_⟩
      intro a ha b hb
      obtain ⟨j, hj0, hj4, hapub, -, -⟩ := hdmem a ha
      obtain ⟨d, j', hd1, hd2, hj', hbpub, -, -⟩ := hmem' b hb
      rw [hapub, hbpub]
      have hd1' : ((day : ℤ) + 1) ≤ (d : ℤ) := by exact_mod_cast hd1
      have hj3' : (j : ℤ) ≤ 3 := by exact_mod_cast (by omega : j ≤ 3)
      have hj0' : (0 : ℤ) ≤ (j' : ℤ) := Int.ofNat_nonneg j'
      simp only [msPerDay]
      linarith [hd1', hj3', hj0']

theorem analyticsPostsMock_d7_eq (g : ℕ → ℚ) (now : ℤ) (pid : String) :
    analyticsPostsMock g now pid { timeRange := some .d7 } =
      (genDays g now pid
        (createCompleteAnalyticsOptions now { timeRange := some .d7 })
        allPlatforms 120 4 30 0 0).mergeSort newerFirst := by
  have hdiv : ((dayFloor now - (dayFloor now - 30 * msPerDay) : ℤ) : ℚ) /
      (msPerDay : ℚ) = 30 := by
    push_cast [msPerDay]
    ring_nf
  have hdays : getTimeRangeDays
      (createCompleteAnalyticsOptions now { timeRange := some .d7 }) = 30 := by
    rw [completeOptions_d7]
    show ⌈((dayFloor now - (dayFloor now - 30 * msPerDay) : ℤ) : ℚ) / (msPerDay : ℚ)⌉ = 30
    rw [hdiv]
    norm_num
  have hcount : calculatePostCount 30
      (createCompleteAnalyticsOptions now { timeRange := some .d7 }) = 120 := by
    rw [completeOptions_d7]
    unfold calculatePostCount jsOrNat
    norm_num
    rw [if_neg (by decide), if_neg (by decide)]
    norm_num
  have hact : activePlatforms
      (createCompleteAnalyticsOptions now { timeRange := some .d7 }) = allPlatforms := by
    rw [completeOptions_d7]
    rfl
  simp only [analyticsPostsMock, generateMockAnalytics]
  rw [hdays, hcount, hact]
  norm_num [jsCeilDiv]
  rw [show Int.toNat 30 = 30 from rfl]

/-- **C2** (amended): in simulation mode,
`analytics.posts(profileId, {timeRange: '7d'})` with no explicit
start/end dates returns only records whose `publishedAt` lies within the
trailing **30** days of call time — the `'7d'` shorthand is overridden by
the default-filled explicit start/end dates, which always span 30 days —
and the returned list is sorted strictly descending by `publishedAt`. -/
theorem analytics_posts_7d_window (g : ℕ → ℚ) (now : ℤ) (pid : String) :
    (∀ p ∈ analyticsPostsMock g now pid { timeRange := some .d7 },
      now - 30 * msPerDay ≤ p.publishedAt ∧ p.publishedAt ≤ now) ∧
    (analyticsPostsMock g now pid { timeRange := some .d7 }).Pairwise
      (fun a b => b.publishedAt < a.publishedAt) := by
  have heq := analyticsPostsMock_d7_eq g now pid
  obtain ⟨hmem, hpw⟩ := genDays_d7_spec g now pid
    (createCompleteAnalyticsOptions now { timeRange := some .d7 }) 30 0 0
    (by omega) (by omega)
  have hsorted : (genDays g now pid
      (createCompleteAnalyticsOptions now { timeRange := some .d7 })
      allPlatforms 120 4 30 0 0).Pairwise (fun a b => newerFirst a b = true) :=
    hpw.imp (fun h => by simp only [newerFirst, decide_eq_true_eq]; exact le_of_lt h)
  have hms := List.mergeSort_of_sorted hsorted
  rw [heq, hms]
  refine ⟨?_, hpw⟩
  intro p hp
  obtain ⟨d, j, -, hd30, hj4, hpub, -, hje⟩ := hmem p hp
  constructor
  · rw [hpub]
    simp only [msPerDay]
    omega
  · have hstop : (createCompleteAnalyticsOptions now
        { timeRange := some .d7 }).stop = some (dayFloor now) := by
      rw [completeOptions_d7]
    have := hje (dayFloor now) (Option.mem_def.mpr hstop)
    exact le_trans this (dayFloor_le now)

unseal Rat.add Rat.sub Rat.mul Rat.inv List.merge List.mergeSort in
set_option maxRecDepth 4000 in
/-- Counterexample to C2 as stated: at a concrete call time, the list
returned for `{timeRange: '7d'}` contains a post published more than 7
days before the call time — the `'7d'` shorthand has no effect because
option completion always fills explicit start/end dates spanning 30 days,
and those take precedence. -/
theorem analytics_posts_7d_counterexample :
    (analyticsPostsMock (fun _ => (1:ℚ)/2) 1700000000000 "profile_x_001"
      { timeRange := some .d7 }).any
      (fun p => decide (p.publishedAt < 1700000000000 - 7 * msPerDay)) = true := by
  decide

end BufferSdk
